import Mathlib

/-!
Verification of the Garmin-log-reporter core: the safe API-call wrapper
(`safe_api_call` in `src/garmin_client/api_safe.py`) and the login/MFA
retry loop and data-fetch methods of `GarminClient`
(`src/garmin_client/client.py`), embedded shallowly as total Lean
functions over an explicit model of the Python exceptions and of the
external service's responses.
-/

set_option autoImplicit false

namespace GarminLogReporter

/-- `infixOf pat l` is true iff `pat` occurs as a contiguous sublist of `l`. -/
def infixOf (pat : List Char) : List Char → Bool
  | [] => pat.isEmpty
  | c :: cs => pat.isPrefixOf (c :: cs) || infixOf pat cs

/-- Python substring test: `pat in s`. -/
def strContains (s pat : String) : Bool :=
  infixOf pat.data s.data

/-- The exceptions distinguished by `safe_api_call`'s `except` clauses:
`GarthHTTPError` (with the optional `e.response.status_code` and `str(e)`),
`GarminConnectAuthenticationError`, `GarminConnectConnectionError`, and any
other `Exception`, each carrying its message text. -/
inductive PyExc where
  | garthHTTP (status_code : Option Nat) (error_str : String)
  | authError (msg : String)
  | connError (msg : String)
  | otherExc (msg : String)
deriving Repr, DecidableEq

/-- The behaviour of invoking `api_method(*args, **kwargs)`: it either
returns a value or raises an exception. -/
inductive CallResult (α : Type) where
  | ok (v : α)
  | exc (e : PyExc)
deriving Repr, DecidableEq

/-- The observable result of `safe_api_call`: the returned
`(success, result, error_message)` triple together with the list of
warning lines printed to stdout, in order. `result = none` models
Python `None` in the triple's middle slot on failure. -/
structure Outcome (α : Type) where
  success : Bool
  result : Option α
  error_message : Option String
  printed : List String
deriving Repr, DecidableEq

/-- The warning line `f"⚠️ {method_name} failed: {error_msg}"`. -/
def warnLine (method_name error_msg : String) : String :=
  "⚠️ " ++ method_name ++ " failed: " ++ error_msg

def badRequestMsg : String :=
  "Endpoint not available (400 Bad Request) - This feature may not be enabled for your account or region"

def unauthorizedMsg : String :=
  "Authentication required (401 Unauthorized) - Please re-authenticate"

def forbiddenMsg : String :=
  "Access denied (403 Forbidden) - Your account may not have permission for this feature"

def notFoundMsg : String :=
  "Endpoint not found (404) - This feature may have been moved or removed"

def rateLimitedMsg : String :=
  "Rate limit exceeded (429) - Please wait before making more requests"

def serverErrorMsg : String :=
  "Server error (500) - Garmin's servers are experiencing issues"

def serviceUnavailableMsg : String :=
  "Service unavailable (503) - Garmin's servers are temporarily unavailable"

/-- `safe_api_call` from `src/garmin_client/api_safe.py` (the copy in
`src/garmin.py` is textually identical).  The `GarthHTTPError` handler
classifies by an `if`/`elif` chain on the attached status code or a
substring match on `str(e)`; every branch except the 400 branch and the
final `else` prints a warning line, and one more warning line is printed
unconditionally just before `return False, None, error_msg`. -/
def safe_api_call {α : Type} (method_name : String) (call : CallResult α) :
    Outcome α :=
  match call with
  | .ok result => ⟨true, some result, none, []⟩
  | .exc (.garthHTTP status_code error_str) =>
    let branch : String × List String :=
      if status_code = some 400 ∨
          (strContains error_str "400" = true ∧
           strContains error_str "Bad Request" = true) then
        (badRequestMsg, [])
      else if status_code = some 401 ∨ strContains error_str "401" = true then
        (unauthorizedMsg, [warnLine method_name unauthorizedMsg])
      else if status_code = some 403 ∨ strContains error_str "403" = true then
        (forbiddenMsg, [warnLine method_name forbiddenMsg])
      else if status_code = some 404 ∨ strContains error_str "404" = true then
        (notFoundMsg, [warnLine method_name notFoundMsg])
      else if status_code = some 429 ∨ strContains error_str "429" = true then
        (rateLimitedMsg, [warnLine method_name rateLimitedMsg])
      else if status_code = some 500 ∨ strContains error_str "500" = true then
        (serverErrorMsg, [warnLine method_name serverErrorMsg])
      else if status_code = some 503 ∨ strContains error_str "503" = true then
        (serviceUnavailableMsg, [warnLine method_name serviceUnavailableMsg])
      else
        ("HTTP error: " ++ error_str, [])
    ⟨false, none, some branch.1, branch.2 ++ [warnLine method_name branch.1]⟩
  | .exc (.authError m) =>
    let error_msg := "Authentication issue: " ++ m
    ⟨false, none, some error_msg, [warnLine method_name error_msg]⟩
  | .exc (.connError m) =>
    let error_msg := "Connection issue: " ++ m
    ⟨false, none, some error_msg, [warnLine method_name error_msg]⟩
  | .exc (.otherExc m) =>
    let error_msg := "Unexpected error: " ++ m
    ⟨false, none, some error_msg, [warnLine method_name error_msg]⟩

/-- `error_message` of `safe_api_call` on a `GarthHTTPError` with the given
attached status code and `str(e)` text. -/
def httpMsg (method_name : String) (status_code : Option Nat) (error_str : String) :
    Option String :=
  (safe_api_call (α := Unit) method_name (.exc (.garthHTTP status_code error_str))).error_message

/-- Claim C1: for every operation and every exception it raises, `safe_api_call`
returns the `(success, result, error_message)` triple — `success = false`
with a non-`None` error message — rather than letting the fault propagate
(in the embedding, `safe_api_call` is a total function, so no fault ever
escapes the Call Guard). -/
theorem claim_C1 {α : Type} (method_name : String) (e : PyExc) :
    (safe_api_call (α := α) method_name (.exc e)).success = false ∧
    ((safe_api_call (α := α) method_name (.exc e)).error_message).isSome = true := by
  cases e <;> simp [safe_api_call]

/-- Claim C9: for every operation that returns normally with value `v` — including
`None` or an empty collection, which are just values of `α` — `safe_api_call`
returns `(True, v, None)` (and prints nothing). -/
theorem claim_C9 {α : Type} (method_name : String) (v : α) :
    safe_api_call method_name (.ok v) = ⟨true, some v, none, []⟩ := rfl

/-- Claim C6: outcome invariant of every `safe_api_call` triple: if `success` is
true then `error_message` is `None` and `result` holds the operation's
value; if `success` is false then `result` is `None` and `error_message`
is a non-`None` string. -/
theorem claim_C6 {α : Type} (method_name : String) (call : CallResult α) :
    ((safe_api_call method_name call).success = true →
      (safe_api_call method_name call).error_message = none ∧
      ((safe_api_call method_name call).result).isSome = true) ∧
    ((safe_api_call method_name call).success = false →
      (safe_api_call method_name call).result = none ∧
      ((safe_api_call method_name call).error_message).isSome = true) := by
  cases call with
  | ok v => simp [safe_api_call]
  | exc e => cases e <;> simp [safe_api_call]

/-- Witness for C6 at a concrete successful call. -/
theorem claim_C6_witness :
    (safe_api_call "get_user_summary" (.ok (42 : Nat))).error_message = none ∧
    ((safe_api_call "get_user_summary" (.ok (42 : Nat))).result).isSome = true :=
  (claim_C6 "get_user_summary" (.ok 42)).1 rfl

/-- Claim C2 (code bug): for an operation raising a `GarthHTTPError`
classified as BadRequest (status 400), `safe_api_call` does return
`success = False` with the BadRequest error message as claimed, but the
unconditional `print` just before `return False, None, error_msg` still
emits one warning line, contradicting the claim (and the in-code comment
"Don't print for 400 errors"). -/
theorem claim_C2 (method_name error_str : String) :
    safe_api_call (α := Unit) method_name (.exc (.garthHTTP (some 400) error_str)) =
      ⟨false, none, some badRequestMsg, [warnLine method_name badRequestMsg]⟩ := by
  simp [safe_api_call]

/-- Counterexample to claim C3 as stated: a `GarthHTTPError` carrying the
unrecognized attached status 402 whose message mentions 503 is classified
as ServiceUnavailable by the code, not as the generic "HTTP error" message
the claim requires for "any other status": the substring tests of the
`elif` chain fire even when a (different) status code is attached. -/
theorem claim_C3_counterexample :
    httpMsg "get_stats" (some 402) "server maintenance until 503" =
      some serviceUnavailableMsg ∧
    serviceUnavailableMsg ≠ "HTTP error: " ++ "server maintenance until 503" := by
  constructor
  · rfl
  · decide

/-- Claim C3 (amended): classification of a `GarthHTTPError` proceeds by an
ordered chain testing, for each of 400, 401, 403, 404, 429, 500, 503,
whether the attached status equals that code or the message contains it
(for 400: contains both "400" and "Bad Request"), the first match winning;
hence an attached status in 401/403/404/429/500/503 yields the matching
category's message provided the message does not trigger an earlier branch;
with no status attached, the first code whose substring test fires
determines the message; and an attached status outside the listed codes
yields the generic "HTTP error" message provided no substring test fires.
In all these cases `success = false`. -/
theorem claim_C3 (name s : String) :
    (¬ (strContains s "400" = true ∧ strContains s "Bad Request" = true) →
      httpMsg name (some 401) s = some unauthorizedMsg) ∧
    (¬ (strContains s "400" = true ∧ strContains s "Bad Request" = true) →
      strContains s "401" = false →
      httpMsg name (some 403) s = some forbiddenMsg) ∧
    (¬ (strContains s "400" = true ∧ strContains s "Bad Request" = true) →
      strContains s "401" = false → strContains s "403" = false →
      httpMsg name (some 404) s = some notFoundMsg) ∧
    (¬ (strContains s "400" = true ∧ strContains s "Bad Request" = true) →
      strContains s "401" = false → strContains s "403" = false →
      strContains s "404" = false →
      httpMsg name (some 429) s = some rateLimitedMsg) ∧
    (¬ (strContains s "400" = true ∧ strContains s "Bad Request" = true) →
      strContains s "401" = false → strContains s "403" = false →
      strContains s "404" = false → strContains s "429" = false →
      httpMsg name (some 500) s = some serverErrorMsg) ∧
    (¬ (strContains s "400" = true ∧ strContains s "Bad Request" = true) →
      strContains s "401" = false → strContains s "403" = false →
      strContains s "404" = false → strContains s "429" = false →
      strContains s "500" = false →
      httpMsg name (some 503) s = some serviceUnavailableMsg) ∧
    (¬ (strContains s "400" = true ∧ strContains s "Bad Request" = true) →
      strContains s "401" = true →
      httpMsg name none s = some unauthorizedMsg) ∧
    (¬ (strContains s "400" = true ∧ strContains s "Bad Request" = true) →
      strContains s "401" = false → strContains s "403" = true →
      httpMsg name none s = some forbiddenMsg) ∧
    (¬ (strContains s "400" = true ∧ strContains s "Bad Request" = true) →
      strContains s "401" = false → strContains s "403" = false →
      strContains s "404" = true →
      httpMsg name none s = some notFoundMsg) ∧
    (¬ (strContains s "400" = true ∧ strContains s "Bad Request" = true) →
      strContains s "401" = false → strContains s "403" = false →
      strContains s "404" = false → strContains s "429" = true →
      httpMsg name none s = some rateLimitedMsg) ∧
    (¬ (strContains s "400" = true ∧ strContains s "Bad Request" = true) →
      strContains s "401" = false → strContains s "403" = false →
      strContains s "404" = false → strContains s "429" = false →
      strContains s "500" = true →
      httpMsg name none s = some serverErrorMsg) ∧
    (¬ (strContains s "400" = true ∧ strContains s "Bad Request" = true) →
      strContains s "401" = false → strContains s "403" = false →
      strContains s "404" = false → strContains s "429" = false →
      strContains s "500" = false → strContains s "503" = true →
      httpMsg name none s = some serviceUnavailableMsg) ∧
    (∀ c : Nat, c ∉ ([400, 401, 403, 404, 429, 500, 503] : List Nat) →
      ¬ (strContains s "400" = true ∧ strContains s "Bad Request" = true) →
      strContains s "401" = false → strContains s "403" = false →
      strContains s "404" = false → strContains s "429" = false →
      strContains s "500" = false → strContains s "503" = false →
      httpMsg name (some c) s = some ("HTTP error: " ++ s)) ∧
    (∀ st : Option Nat,
      (safe_api_call (α := Unit) name (.exc (.garthHTTP st s))).success = false) := by
  refine ⟨?_, ?_, ?_, ?_, ?_, ?_, ?_, ?_, ?_, ?_, ?_, ?_, ?_, ?_⟩
  · intro h0
    simp [httpMsg, safe_api_call, h0]
  · intro h0 h1
    simp [httpMsg, safe_api_call, h0, h1]
  · intro h0 h1 h3
    simp [httpMsg, safe_api_call, h0, h1, h3]
  · intro h0 h1 h3 h4
    simp [httpMsg, safe_api_call, h0, h1, h3, h4]
  · intro h0 h1 h3 h4 h9
    simp [httpMsg, safe_api_call, h0, h1, h3, h4, h9]
  · intro h0 h1 h3 h4 h9 h5
    simp [httpMsg, safe_api_call, h0, h1, h3, h4, h9, h5]
  · intro h0 h1
    simp [httpMsg, safe_api_call, h0, h1]
  · intro h0 h1 h3
    simp [httpMsg, safe_api_call, h0, h1, h3]
  · intro h0 h1 h3 h4
    simp [httpMsg, safe_api_call, h0, h1, h3, h4]
  · intro h0 h1 h3 h4 h9
    simp [httpMsg, safe_api_call, h0, h1, h3, h4, h9]
  · intro h0 h1 h3 h4 h9 h5
    simp [httpMsg, safe_api_call, h0, h1, h3, h4, h9, h5]
  · intro h0 h1 h3 h4 h9 h5 h6
    simp [httpMsg, safe_api_call, h0, h1, h3, h4, h9, h5, h6]
  · intro c hc h0 h1 h3 h4 h9 h5 h6
    simp only [List.mem_cons, List.not_mem_nil, or_false, not_or] at hc
    obtain ⟨hc0, hc1, hc3, hc4, hc9, hc5, hc6⟩ := hc
    simp [httpMsg, safe_api_call, h0, h1, h3, h4, h9, h5, h6,
      hc0, hc1, hc3, hc4, hc9, hc5, hc6]
  · intro st
    simp [safe_api_call]

/-- Witness for C3 at concrete inputs: status 401 with a clean message gives
the Unauthorized message, and the unlisted status 418 with a clean message
gives the generic message. -/
theorem claim_C3_witness :
    httpMsg "get_stats" (some 401) "boom" = some unauthorizedMsg ∧
    httpMsg "get_stats" (some 418) "boom" = some ("HTTP error: " ++ "boom") := by
  obtain ⟨a1, -, -, -, -, -, -, -, -, -, -, -, c13, -⟩ := claim_C3 "get_stats" "boom"
  exact ⟨a1 (by decide), c13 418 (by decide) (by decide) (by decide) (by decide)
    (by decide) (by decide) (by decide) (by decide)⟩

/-- Outcome of `api.resume_login(result2, code)`: either it returns, or it
raises a `GarthHTTPError` whose `str(e)` is the given message (the only
exception type the login loop catches). -/
inductive ResumeRes where
  | success
  | httpError (msg : String)
deriving Repr, DecidableEq

/-- The external service's behaviour during one login run of
`GarminClient.login`: per attempt index, the `(result1, result2)` pair
returned by `api.login()` on the fresh `Garmin` object, and the outcome of
`api.resume_login(result2, code)` for a given context and code. -/
structure LoginEnv where
  loginCall : Nat → String × String
  resumeCall : Nat → String → String → ResumeRes

/-- How `GarminClient.login` terminates: normal return, the
`Exception("Invalid email or password")` after the loop, the
`Exception("Provide an MFA function")` when MFA is required without a
callback, or a re-raised `GarthHTTPError` from `resume_login`. -/
inductive LoginRes where
  | success
  | failInvalid
  | failNoMfaCallback
  | reraise (msg : String)
deriving Repr, DecidableEq

/-- Observables of one run of `GarminClient.login`: how it terminated, how
many times `api.login()`, `mfa_callback()` and `api.resume_login` were
invoked, whether `self.api` was set (so `is_connected()` holds afterwards),
and whether `garth.dump(tokenstore)` persisted the token. -/
structure LoginTrace where
  outcome : LoginRes
  attempts : Nat
  mfaCalls : Nat
  resumeCalls : Nat
  connected : Bool
  tokenDumped : Bool
deriving Repr, DecidableEq

/-- The body of the `for _ in range(3)` loop of `GarminClient.login`, run
over the list of remaining attempt indices; falling off the loop raises
`Exception("Invalid email or password")`.  `mfa_callback` is indexed by the
attempt on which it is invoked, modelling the code the caller supplies on
that attempt. -/
def loginGo (env : LoginEnv) (mfa_callback : Option (Nat → String)) :
    List Nat → LoginTrace
  | [] => ⟨.failInvalid, 0, 0, 0, false, false⟩
  | i :: rest =>
    let r := env.loginCall i
    if r.1 = "needs_mfa" then
      match mfa_callback with
      | none => ⟨.failNoMfaCallback, 1, 0, 0, false, false⟩
      | some cb =>
        let code := cb i
        match env.resumeCall i r.2 code with
        | .success => ⟨.success, 1, 1, 1, true, true⟩
        | .httpError msg =>
          if strContains msg "401" = true ∨ strContains msg "403" = true then
            let t := loginGo env mfa_callback rest
            ⟨t.outcome, t.attempts + 1, t.mfaCalls + 1, t.resumeCalls + 1,
              t.connected, t.tokenDumped⟩
          else
            ⟨.reraise msg, 1, 1, 1, false, false⟩
    else
      ⟨.success, 1, 0, 0, true, true⟩

/-- `GarminClient.login(mfa_callback)` from `src/garmin_client/client.py`:
three attempts, each creating a fresh `Garmin` object. -/
def login (env : LoginEnv) (mfa_callback : Option (Nat → String)) : LoginTrace :=
  loginGo env mfa_callback [0, 1, 2]

/-- Claim C4: when every attempt requires MFA and every resume is rejected
with a `GarthHTTPError` containing "401" or "403", `login` makes at most 3
(in fact exactly 3) login attempts, raises the login-failure error, and
leaves the client not connected with no token persisted. -/
theorem claim_C4 (env : LoginEnv) (cb : Nat → String)
    (hmfa : ∀ i, (env.loginCall i).1 = "needs_mfa")
    (hrej : ∀ i ctx code, ∃ msg,
      env.resumeCall i ctx code = .httpError msg ∧
      (strContains msg "401" = true ∨ strContains msg "403" = true)) :
    (login env (some cb)).outcome = .failInvalid ∧
    (login env (some cb)).attempts = 3 ∧
    (login env (some cb)).attempts ≤ 3 ∧
    (login env (some cb)).connected = false ∧
    (login env (some cb)).tokenDumped = false := by
  obtain ⟨m0, e0, h0⟩ := hrej 0 (env.loginCall 0).2 (cb 0)
  obtain ⟨m1, e1, h1⟩ := hrej 1 (env.loginCall 1).2 (cb 1)
  obtain ⟨m2, e2, h2⟩ := hrej 2 (env.loginCall 2).2 (cb 2)
  simp [login, loginGo, hmfa, e0, e1, e2, h0, h1, h2]

/-- A login environment in which every attempt demands MFA and every resume
is rejected with a 401. -/
def rejectingEnv : LoginEnv :=
  ⟨fun _ => ("needs_mfa", "mfactx"), fun _ _ _ => .httpError "401 Unauthorized"⟩

/-- Witness for C4 in the always-rejecting environment. -/
theorem claim_C4_witness :
    (login rejectingEnv (some fun _ => "123456")).outcome = .failInvalid ∧
    (login rejectingEnv (some fun _ => "123456")).attempts = 3 ∧
    (login rejectingEnv (some fun _ => "123456")).attempts ≤ 3 ∧
    (login rejectingEnv (some fun _ => "123456")).connected = false ∧
    (login rejectingEnv (some fun _ => "123456")).tokenDumped = false :=
  claim_C4 rejectingEnv (fun _ => "123456") (fun _ => rfl)
    (fun _ _ _ => ⟨"401 Unauthorized", rfl, Or.inl (by decide)⟩)

/-- Claim C7: when the first attempt signals `"needs_mfa"` and resuming with
the callback-supplied code succeeds, `login` invokes the callback exactly
once, resumes exactly once, makes one attempt, and returns with the client
connected and the token persisted. -/
theorem claim_C7 (env : LoginEnv) (cb : Nat → String)
    (hmfa : (env.loginCall 0).1 = "needs_mfa")
    (hres : env.resumeCall 0 (env.loginCall 0).2 (cb 0) = .success) :
    login env (some cb) = ⟨.success, 1, 1, 1, true, true⟩ := by
  simp [login, loginGo, hmfa, hres]

/-- A login environment in which the first attempt demands MFA and resuming
succeeds. -/
def mfaOkEnv : LoginEnv :=
  ⟨fun _ => ("needs_mfa", "mfactx"), fun _ _ _ => .success⟩

/-- Witness for C7 in the one-round-trip MFA environment. -/
theorem claim_C7_witness :
    login mfaOkEnv (some fun _ => "123456") = ⟨.success, 1, 1, 1, true, true⟩ :=
  claim_C7 mfaOkEnv (fun _ => "123456") rfl rfl

/-- Claim C10: when the first attempt signals `"needs_mfa"` and resuming
raises a `GarthHTTPError` whose text contains neither "401" nor "403",
`login` re-raises that fault immediately: one attempt only, no token
persisted, client not connected. -/
theorem claim_C10 (env : LoginEnv) (cb : Nat → String) (msg : String)
    (hmfa : (env.loginCall 0).1 = "needs_mfa")
    (hres : env.resumeCall 0 (env.loginCall 0).2 (cb 0) = .httpError msg)
    (h401 : strContains msg "401" = false)
    (h403 : strContains msg "403" = false) :
    login env (some cb) = ⟨.reraise msg, 1, 1, 1, false, false⟩ := by
  simp [login, loginGo, hmfa, hres, h401, h403]

/-- A login environment in which the first attempt demands MFA and resuming
fails with a structural (non-auth) HTTP error. -/
def structuralErrEnv : LoginEnv :=
  ⟨fun _ => ("needs_mfa", "mfactx"), fun _ _ _ => .httpError "500 Internal Server Error"⟩

/-- Witness for C10 with a 500-class resume failure. -/
theorem claim_C10_witness :
    login structuralErrEnv (some fun _ => "123456") =
      ⟨.reraise "500 Internal Server Error", 1, 1, 1, false, false⟩ :=
  claim_C10 structuralErrEnv (fun _ => "123456") "500 Internal Server Error"
    rfl rfl (by decide) (by decide)

/-- The exceptions a `GarminClient` data-fetch method can raise:
`RuntimeError("Client is not connected")` from the fail-fast guard, or the
`Exception(err)` raised by `_call` when `safe_api_call` reports failure. -/
inductive ClientErr where
  | runtimeError (msg : String)
  | exc (msg : String)
deriving Repr, DecidableEq

/-- `GarminClient.is_connected`: `self.api is not None`, with the `Garmin`
object modelled as an opaque handle. -/
def is_connected (api : Option Unit) : Bool :=
  api.isSome

/-- `GarminClient._call`: wraps the endpoint invocation in `safe_api_call`,
raises `Exception(err)` when it reports failure, and returns the data
otherwise.  The two `"None"` arms model `Exception(None)` on the
triple shapes `safe_api_call` never actually produces. -/
def client_call {α : Type} (method_name : String) (call : CallResult α) :
    Except ClientErr α :=
  let o := safe_api_call method_name call
  if o.success = true then
    match o.result with
    | some data => .ok data
    | none => .error (.exc "None")
  else
    match o.error_message with
    | some err => .error (.exc err)
    | none => .error (.exc "None")

/-- Python truthiness of the fetched activities value: `None` and `[]` are
falsy, a non-empty list is truthy. -/
def isTruthy : Option (List Nat) → Bool
  | none => false
  | some [] => false
  | some (_ :: _) => true

def noActivitiesMsg : String :=
  "you haven't done anything dude get moving!"

/-- `GarminClient.get_activities(start, end)`: fail fast when not connected,
fetch through `_call`, and return either the data or the replacement
message string (`if not data: return ...`).  The second component records
whether the underlying network endpoint was invoked. -/
def get_activities (api : Option Unit) (fetch : CallResult (Option (List Nat))) :
    Except ClientErr (Option (List Nat) ⊕ String) × Bool :=
  if is_connected api = false then
    (.error (.runtimeError "Client is not connected"), false)
  else
    match client_call "get_activities_by_date" fetch with
    | .error e => (.error e, true)
    | .ok data =>
      if isTruthy data = false then (.ok (.inr noActivitiesMsg), true)
      else (.ok (.inl data), true)

/-- `GarminClient.get_activity(activity_id)`: fail fast when not connected,
else fetch the activity details through `_call`. -/
def get_activity (api : Option Unit) (fetch : CallResult Nat) :
    Except ClientErr Nat × Bool :=
  if is_connected api = false then
    (.error (.runtimeError "Client is not connected"), false)
  else
    (client_call "get_activity_details" fetch, true)

/-- Claim C8: any call to `get_activities` or `get_activity` while the
client is not connected fails fast with the "not connected" error and never
invokes the underlying network operation. -/
theorem claim_C8 (f1 : CallResult (Option (List Nat))) (f2 : CallResult Nat) :
    get_activities none f1 = (.error (.runtimeError "Client is not connected"), false) ∧
    get_activity none f2 = (.error (.runtimeError "Client is not connected"), false) :=
  ⟨rfl, rfl⟩

/-- Claim C5 (code bug): at the Call Guard level an empty fetch result is a
success outcome distinguished from failure by the `ok` flag, as claimed;
but `GarminClient.get_activities` then tests truthiness of the value
(`if not data`) and hands the caller the replacement string instead of the
empty value — contradicting the claim and the repository's own test
`test_api_returns_none`, which asserts the caller receives `None`. -/
theorem claim_C5 :
    safe_api_call "get_activities_by_date" (.ok (none : Option (List Nat))) =
      ⟨true, some none, none, []⟩ ∧
    safe_api_call "get_activities_by_date" (.ok (some ([] : List Nat))) =
      ⟨true, some (some []), none, []⟩ ∧
    get_activities (some ()) (.ok none) = (.ok (.inr noActivitiesMsg), true) ∧
    get_activities (some ()) (.ok (some [])) = (.ok (.inr noActivitiesMsg), true) :=
  ⟨rfl, rfl, rfl, rfl⟩

end GarminLogReporter
